import Mathlib

/-!
# Crime AI — verification of the text scoring and aggregation engine

Shallow embedding of the API server source (the `analyzeText` scorer, the
`calculateProbability` estimator, the threat log with its demo seeds, and the
statistics / prediction aggregators), together with theorems settling the
frozen claims about the natural-language specification.

Strings are modelled as `List Char` (Unicode code points); machine numbers as
`Nat` (every quantity in the scoring pipeline is a non-negative integer).
-/

namespace CrimeAI

/-- Threat level strings produced by the scorer: "low" | "medium" | "high" | "critical". -/
inductive Level where
  | low | medium | high | critical
deriving DecidableEq

/-- Language tag attached to a found threat: "en" | "zh". -/
inductive Lang where
  | en | zh
deriving DecidableEq

/-- Category names of the CATEGORIES table, plus the "general_threat" fallback. -/
inductive Cat where
  | physical_violence | terrorism | self_harm | harassment
  | property_crime | cyber_threat | ai_threat | general_threat
deriving DecidableEq

/-- Pattern types of the PATTERNS table: "urgency" | "targeted" | "planning" | "emotional". -/
inductive PType where
  | urgency | targeted | planning | emotional
deriving DecidableEq

/-- An entry of `found_threats`: `{ keyword, score, category, language }`. -/
structure ThreatEntry where
  keyword : String
  score : Nat
  category : Cat
  language : Lang
deriving DecidableEq

/-- An entry of `detected_patterns`.  The source records `{ type, matched }` where
`matched` is the first regex match; the matched-substring evidence is not modelled
(no claim reads it), only which pattern rules matched, in table order. -/
structure DetectedPattern where
  ptype : PType
deriving DecidableEq

/-- The result object returned by `analyzeText`. -/
structure AnalysisResult where
  text_preview : List Char
  threat_score : Nat
  threat_level : Level
  found_threats : List ThreatEntry
  detected_patterns : List DetectedPattern
  analyzed_at : List Char
deriving DecidableEq

/-- The VIOLENCE_KEYWORDS object, in `Object.entries` iteration order (first
occurrence of each key; the source repeats "end it all", "train attack" and
"metro attack" with identical weights, and object-literal semantics keep the
first position with the last — equal — value). -/
def VIOLENCE_KEYWORDS : List (String × Nat) := [
  ("kill", 95), ("murder", 100), ("shoot", 90), ("stab", 85), ("attack", 80),
  ("massacre", 100), ("terrorist", 100), ("bomb", 100), ("explosion", 90),
  ("rape", 100), ("assault", 85), ("abuse", 75), ("rampage", 95),
  ("threaten", 75), ("threat", 70), ("revenge", 80), ("deserve", 95), ("wipe out", 90),
  ("eliminate", 85), ("end it all", 95), ("going to kill", 100), ("want them dead", 100),
  ("make them pay", 95), ("going to shoot", 100), ("knife attack", 90),
  ("gun", 70), ("knife", 65), ("weapon", 75), ("arsenal", 80), ("firearm", 75),
  ("rifle", 65), ("ammunition", 70), ("pistol", 70), ("shotgun", 75),
  ("suicide", 90), ("kill myself", 95), ("want to die", 90),
  ("no reason to live", 90), ("give up", 80), ("no point", 75),
  ("hack", 50), ("breach", 55), ("ddos", 60), ("malware", 55), ("ransomware", 65),
  ("phishing", 45), ("cyberattack", 70), ("exploit", 50), ("backdoor", 55),
  ("rob", 70), ("steal", 65), ("burglary", 60), ("vandalism", 45), ("fraud", 55),
  ("extortion", 70), ("embezzlement", 60), ("scam", 45), ("theft", 55),
  ("harass", 60), ("stalk", 70), ("bullying", 55), ("intimidate", 65),
  ("doxxing", 55), ("swatting", 75), ("threats", 70),
  ("deepfake", 55), ("ai attack", 70), ("bioweapon", 90), ("mass poison", 95),
  ("radiation", 85), ("chemical weapon", 90), ("mass shooting", 100),
  ("vehicle ramming", 85), ("gas attack", 90), ("nerve gas", 100),
  ("school shooting", 100), ("workplace violence", 85), ("domestic terrorism", 90),
  ("lone wolf", 85), ("ied", 85), ("pipe bomb", 90),
  ("voice clone", 65), ("deep voice", 65), ("synthetic identity", 60),
  ("ai fraud", 70), ("deepfake extortion", 75), ("ai generated abuse", 75),
  ("acid attack", 90), ("machete", 80), ("crossbow", 75), ("crossbow attack", 85),
  ("drone attack", 85), ("drone swarm", 85), ("poison water", 90),
  ("杀人", 95), ("杀", 90), ("杀掉", 95), ("杀了他", 100), ("嫩死", 95),
  ("炸弹", 90), ("炸药", 95), ("引爆", 90), ("恐怖分子", 95), ("恐怖袭击", 100),
  ("枪", 60), ("刀", 55), ("武器", 65), ("子弹", 60), ("枪支", 70),
  ("偷", 50), ("抢", 65), ("盗窃", 60), ("诈骗", 55), ("抢劫", 70),
  ("威胁", 70), ("恐吓", 70), ("骚扰", 60), ("自杀", 90), ("轻生", 85),
  ("想死", 85), ("报复", 75), ("绑架", 85), ("勒索", 70), ("撕票", 100),
  ("投毒", 85), ("纵火", 85), ("贩毒", 80), ("毒品", 65),
  ("网暴", 65), ("人肉搜索", 70), ("开盒", 75), ("网络暴力", 65),
  ("电信诈骗", 65), ("杀猪盘", 70), ("ai诈骗", 65), ("ai攻击", 70),
  ("深伪", 55), ("深度伪造", 60), ("语音克隆", 65),
  ("弄死", 95), ("搞死", 90), ("砍死", 90), ("溺死", 85), ("烧死", 85),
  ("硫酸", 90), ("农药", 80), ("氰化物", 95), ("铊", 95),
  ("黑社会", 70), ("帮派", 65), ("赌场", 60), ("洗钱", 65), ("军火", 80),
  ("校园", 60), ("幼儿园", 70), ("小学", 60), ("中学", 55),
  ("train attack", 85), ("metro attack", 80), ("subway attack", 80),
  ("airport threat", 85), ("bridge attack", 85), ("tunnel attack", 80),
  ("ai impersonation", 70), ("faceless", 65), ("cloaked", 60),
  ("electric shock", 75), ("taser attack", 80),
  ("package bomb", 90), ("letter bomb", 90),
  ("engineered virus", 100), ("synthetic biology", 90),
  ("autonomous weapon", 85), ("killer robot", 90)]

/-- The CATEGORIES object, in iteration order. -/
def CATEGORIES : List (Cat × List String) := [
  (.physical_violence, ["kill", "murder", "shoot", "stab", "attack", "beat", "hurt", "assault", "rampage", "massacre"]),
  (.terrorism, ["terrorist", "massacre", "bomb", "explosive", "bioweapon", "chemical weapon", "radiation"]),
  (.self_harm, ["suicide", "kill myself", "end it all", "want to die", "give up", "no reason to live"]),
  (.harassment, ["harass", "stalk", "bully", "threaten", "doxxing", "swatting", "intimidate"]),
  (.property_crime, ["rob", "steal", "burglary", "fraud", "extortion", "scam", "embezzlement"]),
  (.cyber_threat, ["hack", "breach", "ddos", "malware", "ransomware", "cyberattack", "phishing"]),
  (.ai_threat, ["deepfake", "ai attack", "voice clone", "ai诈骗"])]

/-- The CJK Unified Ideographs test of the source: the character class
regex from U+4E00 to U+9FA5. -/
def isCJK (c : Char) : Bool := 0x4e00 ≤ c.toNat && c.toNat ≤ 0x9fa5

/-- JavaScript `hay.includes(pat)`: `pat` occurs as a contiguous substring of `hay`
(true for the empty pattern). -/
def containsSub (hay pat : List Char) : Bool := hay.tails.any (fun t => pat.isPrefixOf t)

/-- `text.toLowerCase()`, restricted to the ASCII folding that the lexicon and
pattern literals (lower-case ASCII plus CJK) exercise. -/
def lowerText (text : List Char) : List Char := text.map Char.toLower

/-! ## Regular expressions

The PATTERNS rules use only literals, alternation, grouping, the dot, star,
plus, optional and the classes d and s — no anchors, backreferences or
lookaround — so their match-existence semantics is that of classical regular
expressions, modelled by Brzozowski derivatives. -/

/-- Regular expression syntax: empty language, empty word, a character class
(a Boolean test on one character), concatenation, alternation, iteration. -/
inductive RE where
  | empt
  | eps
  | cls (p : Char → Bool)
  | cat (r s : RE)
  | alt (r s : RE)
  | star (r : RE)

/-- Smart concatenation (language-preserving simplification). -/
def scat (r s : RE) : RE :=
  match r, s with
  | .empt, _ => .empt
  | _, .empt => .empt
  | .eps, s => s
  | r, .eps => r
  | r, s => .cat r s

/-- Smart alternation (language-preserving simplification). -/
def salt (r s : RE) : RE :=
  match r, s with
  | .empt, s => s
  | r, .empt => r
  | r, s => .alt r s

/-- Does the regular expression accept the empty word? -/
def nullable : RE → Bool
  | .empt => false
  | .eps => true
  | .cls _ => false
  | .cat r s => nullable r && nullable s
  | .alt r s => nullable r || nullable s
  | .star _ => true

/-- Brzozowski derivative with respect to one character. -/
def deriv : RE → Char → RE
  | .empt, _ => .empt
  | .eps, _ => .empt
  | .cls p, c => if p c then .eps else .empt
  | .cat r s, c => salt (scat (deriv r c) s) (if nullable r then deriv s c else .empt)
  | .alt r s, c => salt (deriv r c) (deriv s c)
  | .star r, c => scat (deriv r c) (.star r)

/-- Anchored acceptance: the whole character list belongs to the language. -/
def rmatch (r : RE) (cs : List Char) : Bool := nullable (cs.foldl deriv r)

/-- A class accepting every character (used to pad an unanchored search). -/
def anyChar : RE := .cls (fun _ => true)

/-- Unanchored search, the semantics of `text.match(regex) !== null` for the
anchor-free PATTERNS rules: some contiguous substring of the text is accepted. -/
def rtest (r : RE) (text : List Char) : Bool :=
  rmatch (scat (.star anyChar) (scat r (.star anyChar))) text

/-- A pattern literal character under the `i` flag: matches a character whose
ASCII lower-case folding equals that of the literal (CJK characters fold to
themselves). -/
def ichar (c : Char) : RE := .cls (fun x => x.toLower == c.toLower)

/-- A literal string of pattern characters. -/
def rstr (s : String) : RE := s.toList.foldr (fun c acc => scat (ichar c) acc) .eps

/-- Concatenation of a list of regular expressions. -/
def rcat (rs : List RE) : RE := rs.foldr scat .eps

/-- Alternation of a list of regular expressions. -/
def ralt (rs : List RE) : RE := rs.foldr salt .empt

/-- One-or-more iteration (the + operator). -/
def rplus (r : RE) : RE := scat r (.star r)

/-- Zero-or-one (the ? operator). -/
def ropt (r : RE) : RE := salt .eps r

/-- JavaScript whitespace (the s class, and the character set stripped by
`String.prototype.trim`): WhiteSpace plus LineTerminator code points. -/
def isJsWhitespace (c : Char) : Bool :=
  c == ' ' || c == '\t' || c == '\n' || c == '\x0d' || c == '\x0b' || c == '\x0c' ||
  c.toNat == 0xa0 || c.toNat == 0x1680 ||
  (0x2000 ≤ c.toNat && c.toNat ≤ 0x200a) ||
  c.toNat == 0x2028 || c.toNat == 0x2029 || c.toNat == 0x202f ||
  c.toNat == 0x205f || c.toNat == 0x3000 || c.toNat == 0xfeff

/-- The d class: an ASCII decimal digit. -/
def digitC : RE := .cls (fun c => '0' ≤ c && c ≤ '9')

/-- The s class as a regular expression. -/
def spaceC : RE := .cls isJsWhitespace

/-- The JavaScript dot: any character except a line terminator. -/
def jsDot : RE :=
  .cls (fun c => !(c == '\n' || c == '\x0d' || c.toNat == 0x2028 || c.toNat == 0x2029))

/-- `.*` inside a pattern. -/
def dotStar : RE := .star jsDot

/-- One rule of the PATTERNS table: regex, pattern type, bonus score. -/
structure PatternRule where
  re : RE
  ptype : PType
  score : Nat

/-- The PATTERNS table, in source order (all rules carry the `i` flag). -/
def PATTERNS : List PatternRule := [
  ⟨ralt [rstr "right now", rstr "tonight", rcat [rstr "today", dotStar, rstr "going"]], .urgency, 15⟩,
  ⟨ralt [rstr "this weekend", rcat [rstr "tomorrow", dotStar, rstr "will"]], .urgency, 10⟩,
  ⟨rcat [rstr "at ", rplus digitC, .star spaceC, ralt [rstr "am", rstr "pm"]], .urgency, 15⟩,
  ⟨rcat [rstr "in ", rplus digitC, .star spaceC, rstr "hour", ropt (ichar 's')], .urgency, 15⟩,
  ⟨ralt [rstr "counting down", rcat [rstr "final", dotStar, rstr "warning"],
         rcat [rstr "time", dotStar, rstr "running"]], .urgency, 20⟩,
  ⟨rcat [rstr "my ", ralt [rstr "boss", rstr "colleague", rstr "teacher", rstr "neighbor", rstr "ex"]], .targeted, 20⟩,
  ⟨ralt [rcat [rstr "they", dotStar, rstr "deserve"], rstr "will make them pay"], .targeted, 25⟩,
  ⟨rcat [rstr "at ", ralt [rstr "school", rstr "work", rstr "home"]], .targeted, 20⟩,
  ⟨ralt [rstr "going to buy", rstr "just ordered", rstr "already have"], .planning, 25⟩,
  ⟨ralt [rcat [rstr "drive", dotStar, ralt [rstr "truck", rstr "car"], dotStar, rstr "into"],
         rcat [rstr "crowd", dotStar, rstr "people"]], .planning, 35⟩,
  ⟨rcat [rstr "picked ", ralt [rstr "up", rstr "bought", rstr "got"]], .planning, 20⟩,
  ⟨rcat [rstr "know", dotStar, rstr "where", dotStar, ralt [rstr "live", rstr "work"]], .planning, 25⟩,
  ⟨ralt [rcat [rstr "no", dotStar, rstr "reason", dotStar, rstr "live"],
         rcat [rstr "nothing", dotStar, rstr "matter"]], .emotional, 25⟩,
  ⟨rcat [rstr "nobody", dotStar, ralt [rstr "care", rstr "understand"]], .emotional, 20⟩,
  ⟨rcat [rstr "better", dotStar, rstr "without", dotStar, rstr "me"], .emotional, 40⟩,
  ⟨rcat [ralt [rstr "老师", rstr "同学", rstr "同事", rstr "老板"], dotStar,
         ralt [rstr "该", rstr "活该", rstr "死"]], .targeted, 30⟩,
  ⟨rcat [ralt [rstr "准备", rstr "计划", rstr "打算"], dotStar,
         ralt [rstr "杀", rstr "砍", rstr "弄"]], .planning, 35⟩,
  ⟨rcat [rstr "final", dotStar, ralt [rstr "goodbye", rstr "message", rstr "note"]], .emotional, 50⟩,
  ⟨rcat [rstr "nobody", dotStar, ralt [rstr "miss", rstr "remember", rstr "care"]], .emotional, 30⟩,
  ⟨rcat [rstr "always", dotStar, ralt [rstr "tired", rstr "exhausted", rstr "depressed"]], .emotional, 25⟩,
  ⟨rcat [ralt [rstr "3d", rstr "ghost"], dotStar, ralt [rstr "print", rstr "gun"]], .planning, 30⟩,
  ⟨rcat [rstr "synthetic", dotStar, ralt [rstr "virus", rstr "biology"]], .planning, 40⟩]

/-! ## The text scorer (`analyzeText`) -/

/-- Category attribution of a matched keyword: the first CATEGORIES entry whose
member list contains it, with the "general_threat" fallback. -/
def categoryOf (kw : String) : Cat :=
  match CATEGORIES.find? (fun ckv => ckv.2.contains kw) with
  | some ckv => ckv.1
  | none => .general_threat

/-- The keyword pass of `analyzeText`: the `found_threats` entries contributed by
lexicon keywords occurring in the lower-cased text, in table iteration order.
The language tag is "zh" exactly when the keyword contains a CJK character. -/
def keywordThreats (text : List Char) : List ThreatEntry :=
  VIOLENCE_KEYWORDS.filterMap (fun kv =>
    if containsSub (lowerText text) kv.1.toList then
      some ⟨kv.1, kv.2, categoryOf kv.1, if kv.1.toList.any isCJK then .zh else .en⟩
    else none)

/-- The score accumulated by the keyword pass. -/
def keywordScore (text : List Char) : Nat :=
  ((VIOLENCE_KEYWORDS.filter (fun kv => containsSub (lowerText text) kv.1.toList)).map
    (fun kv => kv.2)).sum

/-- The pattern pass: rules whose regex matches somewhere in the (original,
not lower-cased) text, in table order. -/
def detectedPatterns (text : List Char) : List DetectedPattern :=
  (PATTERNS.filter (fun p => rtest p.re text)).map (fun p => ⟨p.ptype⟩)

/-- The bonus accumulated by the pattern pass. -/
def patternScore (text : List Char) : Nat :=
  ((PATTERNS.filter (fun p => rtest p.re text)).map (fun p => p.score)).sum

/-- `text.match(CJK regex with flag g)`: the CJK characters of the text, in order. -/
def chineseChars (text : List Char) : List Char := text.filter isCJK

/-- The script bonus: `min(count * 10, 50)` when any CJK character is present
(the match is null, hence no addition, when none is). -/
def scriptBonus (text : List Char) : Nat :=
  let cs := chineseChars text
  if cs.isEmpty then 0 else min (cs.length * 10) 50

/-- The per-character script-bonus pseudo-matches: the first 10 CJK characters,
each recorded with score 80, category "general_threat", language "zh"
(`chineseChars.slice(0, 10).forEach(...)`). -/
def scriptThreats (text : List Char) : List ThreatEntry :=
  ((chineseChars text).take 10).map (fun c => ⟨String.mk [c], 80, .general_threat, .zh⟩)

/-- Level bucketing of the final score ("low" unless a threshold is reached). -/
def levelOf (s : Nat) : Level :=
  if s ≥ 80 then .critical
  else if s ≥ 60 then .high
  else if s ≥ 40 then .medium
  else .low

/-- `analyzeText(text)`.  The `now` argument models `new Date().toISOString()`,
which only stamps `analyzed_at`. -/
def analyzeText (text : List Char) (now : List Char) : AnalysisResult :=
  let totalScore := keywordScore text + patternScore text + scriptBonus text
  let finalScore := min totalScore 100
  { text_preview := if text.length > 150 then text.take 150 ++ "...".toList else text
    threat_score := finalScore
    threat_level := levelOf finalScore
    found_threats := (keywordThreats text ++ scriptThreats text).take 10
    detected_patterns := detectedPatterns text
    analyzed_at := now }

/-! ## The single-submission probability estimator (`calculateProbability`) -/

/-- Risk levels of the probability estimator. -/
inductive RiskLevel where
  | minimal | moderate | high | extreme
deriving DecidableEq

/-- The result object of `calculateProbability`. -/
structure ProbResult where
  probability : Nat
  risk_level : RiskLevel
  prediction : List Char
deriving DecidableEq

/-- The nighttime condition of the source: `hour < 6 || hour > 23`. -/
def nightHour (hour : Nat) : Bool := hour < 6 || hour > 23

/-- `calculateProbability(threats)`, with the current local hour
(`new Date().getHours()`) passed explicitly.  `threats.length * 20 * 1.3`
evaluates in IEEE-754 double arithmetic to exactly the integer
`26 * threats.length` (the relative error of the binary constant 1.3 is below
half an ulp of the product), and `Math.round` is the identity on it, so the
whole computation is embedded over `Nat`. -/
def calculateProbability (threats : List AnalysisResult) (hour : Nat) : ProbResult :=
  if threats.length = 0 then ⟨0, .minimal, "No threat signals".toList⟩
  else
    let baseProb := if nightHour hour then 26 * threats.length else 20 * threats.length
    let finalProb := min baseProb 100
    ⟨finalProb,
     if finalProb ≥ 80 then .extreme else if finalProb ≥ 60 then .high else .moderate,
     if finalProb ≥ 60 then "HIGH CRIME PROBABILITY".toList else "Low risk".toList⟩

/-! ## Identifier generation -/

/-- One base-36 digit as the character `Number.prototype.toString(36)` prints. -/
def base36Char (d : Nat) : Char :=
  if d < 10 then Char.ofNat (48 + d) else Char.ofNat (87 + d)

/-- `Math.random().toString(36)`: the drawn value is determined by its base-36
fraction digits `ds` (each < 36, empty for the value 0); the printed form is
"0." followed by those digits, or "0" for zero. -/
def randomToString36 (ds : List Nat) : List Char :=
  if ds.isEmpty then ['0'] else '0' :: '.' :: ds.map base36Char

/-- The threat-record identifier expression
`"N-" + Math.random().toString(36).substr(2, 8).toUpperCase()`, as a function of
the fresh random draw of the call (represented by its base-36 fraction digits). -/
def genNumber (ds : List Nat) : List Char :=
  ['N', '-'] ++ (((randomToString36 ds).drop 2).take 8).map Char.toUpper

/-! ## The analyze entry point (`handler`, POST /analyze) -/

/-- `text.trim()`: strip JavaScript whitespace from both ends. -/
def jsTrim (s : List Char) : List Char :=
  ((s.dropWhile isJsWhitespace).reverse.dropWhile isJsWhitespace).reverse

/-- The text-processing path of the analyze route: reject when the trimmed text
is empty (which also covers the falsy empty string) or the raw text exceeds
10000 characters; otherwise trim, cap at 5000 characters, and score. -/
def analyzeEndpoint (text : List Char) (now : List Char) : Option AnalysisResult :=
  if jsTrim text = [] then none
  else if text.length > 10000 then none
  else some (analyzeText ((jsTrim text).take 5000) now)

/-! ## Threat log, statistics and prediction -/

/-- A record of the threat log. -/
structure ThreatRecord where
  number : List Char
  source : List Char
  text : List Char
  analysis : AnalysisResult
  detected_at : List Char
deriving DecidableEq

/-- `["critical", "high"].includes(level)`. -/
def isHighOrCritical (l : Level) : Bool := l == .critical || l == .high

/-- The two demo records pushed into the threat log at module load.  Their random
identifiers and timestamps are the parameters; the analysis literals in the
source carry only `threat_level`, `threat_score` and `found_threats`
(without a language tag), so the remaining `AnalysisResult` fields are completed
with inert values that no reader of the log consults. -/
def demoThreats (n1 n2 t1 t2 : List Char) : List ThreatRecord :=
  [{ number := n1, source := "twitter".toList,
     text := "I\x27m going to kill my boss tomorrow".toList,
     analysis := { text_preview := [], threat_score := 95, threat_level := .critical,
                   found_threats := [⟨"kill", 95, .physical_violence, .en⟩],
                   detected_patterns := [], analyzed_at := [] },
     detected_at := t1 },
   { number := n2, source := "reddit".toList,
     text := "This school deserves what happens this weekend".toList,
     analysis := { text_preview := [], threat_score := 75, threat_level := .high,
                   found_threats := [⟨"deserves", 75, .terrorism, .en⟩],
                   detected_patterns := [], analyzed_at := [] },
     detected_at := t2 }]

/-- The statistics response body. -/
structure StatsData where
  total_threats : Nat
  critical : Nat
  high : Nat
  medium : Nat
  low : Nat
deriving DecidableEq

/-- Records of the log carrying a given threat level. -/
def levelCount (log : List ThreatRecord) (l : Level) : Nat :=
  (log.filter (fun t => t.analysis.threat_level == l)).length

/-- The /statistics computation: total and per-level counts over the log. -/
def statisticsOf (log : List ThreatRecord) : StatsData :=
  { total_threats := log.length
    critical := levelCount log .critical
    high := levelCount log .high
    medium := levelCount log .medium
    low := levelCount log .low }

/-- Citywide risk classification of the prediction response. -/
inductive CitywideRisk where
  | low | elevated
deriving DecidableEq

/-- Confidence classification of the prediction response. -/
inductive Confidence where
  | medium | high
deriving DecidableEq

/-- The prediction response body. -/
structure PredictionData where
  citywide_risk : CitywideRisk
  predicted_crimes : Nat
  hotspots : List (List Char)
  confidence : Confidence
deriving DecidableEq

/-- Records of the log whose stored level is "critical" or "high". -/
def riskCount (log : List ThreatRecord) : Nat :=
  (log.filter (fun t => isHighOrCritical t.analysis.threat_level)).length

/-- The /prediction computation. -/
def predictionOf (log : List ThreatRecord) : PredictionData :=
  { citywide_risk := if riskCount log > 0 then .elevated else .low
    predicted_crimes := riskCount log * 3
    hotspots := if riskCount log > 0 then ["downtown".toList, "transit hub".toList] else []
    confidence := if riskCount log > 2 then .high else .medium }

/-- An analysis value used to instantiate universally quantified statements. -/
def sampleAnalysis : AnalysisResult :=
  { text_preview := [], threat_score := 95, threat_level := .critical,
    found_threats := [], detected_patterns := [], analyzed_at := [] }

/-- A critical-level log record used to instantiate universally quantified statements. -/
def sampleRecord : ThreatRecord :=
  { number := [], source := [], text := [], analysis := sampleAnalysis, detected_at := [] }

/-! ## Helper lemmas -/

/-- The level buckets of `levelOf`, characterised by the threshold intervals. -/
theorem levelOf_buckets (s : Nat) :
    (levelOf s = .critical ↔ 80 ≤ s) ∧
    (levelOf s = .high ↔ 60 ≤ s ∧ s < 80) ∧
    (levelOf s = .medium ↔ 40 ≤ s ∧ s < 60) ∧
    (levelOf s = .low ↔ s < 40) := by
  unfold levelOf
  refine ⟨?_, ?_, ?_, ?_⟩ <;> split_ifs <;> simp_all <;> omega

/-- Truncating the second operand before an append does not change the
truncation of the whole append to the same length. -/
theorem take_append_take {α : Type} (A B : List α) (n : Nat) :
    (A ++ B.take n).take n = (A ++ B).take n := by
  rw [List.take_append_eq_append_take, List.take_append_eq_append_take, List.take_take,
    Nat.min_eq_left (by omega)]

/-! ## Claim theorems -/

/-- C1: for every string input, the analysis returned by the text scorer has a
threat_score that is an integer (a `Nat` here) with 0 ≤ threat_score ≤ 100, and
its threat_level is determined from threat_score by the fixed thresholds:
score ≥ 80 critical, 60 ≤ score < 80 high, 40 ≤ score < 60 medium,
score < 40 low. -/
theorem analyzeText_score_in_range_level_thresholds (text now : List Char) :
    (analyzeText text now).threat_score ≤ 100 ∧
    ((analyzeText text now).threat_level = .critical ↔
      80 ≤ (analyzeText text now).threat_score) ∧
    ((analyzeText text now).threat_level = .high ↔
      60 ≤ (analyzeText text now).threat_score ∧ (analyzeText text now).threat_score < 80) ∧
    ((analyzeText text now).threat_level = .medium ↔
      40 ≤ (analyzeText text now).threat_score ∧ (analyzeText text now).threat_score < 60) ∧
    ((analyzeText text now).threat_level = .low ↔
      (analyzeText text now).threat_score < 40) := by
  have h := levelOf_buckets (analyzeText text now).threat_score
  exact ⟨Nat.min_le_right _ _, h.1, h.2.1, h.2.2.1, h.2.2.2⟩

/-- C7: for every input text, the found_threats list has at most 10 entries, and
those entries are the first 10 in discovery order: keyword-pass matches in
lexicon iteration order followed by the script-bonus per-character
pseudo-matches (one per CJK character of the text, in text order). -/
theorem found_threats_first_ten (text now : List Char) :
    (analyzeText text now).found_threats.length ≤ 10 ∧
    (analyzeText text now).found_threats =
      (keywordThreats text ++
        (chineseChars text).map
          (fun c => (⟨String.mk [c], 80, .general_threat, .zh⟩ : ThreatEntry))).take 10 := by
  constructor
  · exact List.length_take_le _ _
  · show (keywordThreats text ++ scriptThreats text).take 10 = _
    rw [scriptThreats, List.map_take, take_append_take]

/-- C8: the scorer is a total function (it is defined for every string input and
produces an AnalysisResult), and scoring the empty string yields threat_score 0,
threat_level low, an empty found_threats list and an empty detected_patterns
list. -/
theorem analyzeText_empty_string (now : List Char) :
    (analyzeText [] now).threat_score = 0 ∧
    (analyzeText [] now).threat_level = .low ∧
    (analyzeText [] now).found_threats = [] ∧
    (analyzeText [] now).detected_patterns = [] :=
  ⟨rfl, rfl, rfl, rfl⟩

/-- C2 counterexample: the text "right now一二三四五六七八九十" contains exactly
10 CJK characters and matches no lexicon keyword, yet its threat_score is 65
(level high), not 50 (level medium): the pattern rule for "right now" adds a
15-point bonus that the claim does not account for. -/
theorem scriptBonus_claim_counterexample :
    (chineseChars ("right now一二三四五六七八九十".toList)).length = 10 ∧
    VIOLENCE_KEYWORDS.all
      (fun kv => !(containsSub (lowerText ("right now一二三四五六七八九十".toList)) kv.1.toList)) = true ∧
    (analyzeText ("right now一二三四五六七八九十".toList) []).threat_score = 65 ∧
    (analyzeText ("right now一二三四五六七八九十".toList) []).threat_level = .high := by
  refine ⟨by decide, by decide, by decide, by decide⟩

/-- C2 (amended): the scorer adds a script bonus of min(count * 10, 50) to the
running total, where count is the number of CJK characters of the text; and for
every text containing exactly 10 CJK characters that matches no lexicon keyword
and no pattern rule, the final threat_score is 50 and the threat_level is
medium. -/
theorem scriptBonus_amended :
    (∀ text, scriptBonus text = min ((chineseChars text).length * 10) 50) ∧
    (∀ text now, (chineseChars text).length = 10 →
      VIOLENCE_KEYWORDS.all (fun kv => !(containsSub (lowerText text) kv.1.toList)) = true →
      PATTERNS.all (fun p => !(rtest p.re text)) = true →
      (analyzeText text now).threat_score = 50 ∧
      (analyzeText text now).threat_level = .medium) := by
  constructor
  · intro text
    show (if (chineseChars text).isEmpty then 0
          else min ((chineseChars text).length * 10) 50) = _
    cases h : chineseChars text <;> simp [h]
  · intro text now hcnt hkw hpat
    have hne : (chineseChars text).isEmpty = false := by
      cases h : chineseChars text
      · rw [h] at hcnt; simp at hcnt
      · rfl
    have hk : VIOLENCE_KEYWORDS.filter
        (fun kv => containsSub (lowerText text) kv.1.toList) = [] := by
      rw [List.filter_eq_nil_iff]
      intro kv hkv
      have h0 := List.all_eq_true.mp hkw kv hkv
      simp only [Bool.not_eq_true'] at h0
      have h1 : containsSub (lowerText text) kv.1.data = false := h0
      simp [h1]
    have hp : PATTERNS.filter (fun p => rtest p.re text) = [] := by
      rw [List.filter_eq_nil_iff]
      intro p hp2
      have h0 := List.all_eq_true.mp hpat p hp2
      simp only [Bool.not_eq_true'] at h0
      simp [h0]
    have hks : keywordScore text = 0 := by unfold keywordScore; rw [hk]; rfl
    have hps : patternScore text = 0 := by unfold patternScore; rw [hp]; rfl
    have hs : scriptBonus text = 50 := by
      show (if (chineseChars text).isEmpty then 0
            else min ((chineseChars text).length * 10) 50) = 50
      rw [hne, hcnt]
      decide
    have hscore : (analyzeText text now).threat_score = 50 := by
      show min (keywordScore text + patternScore text + scriptBonus text) 100 = 50
      rw [hks, hps, hs]
      decide
    refine ⟨hscore, ?_⟩
    show levelOf (min (keywordScore text + patternScore text + scriptBonus text) 100) = _
    rw [hks, hps, hs]
    decide

/-- C2 witness: the text "一二三四五六七八九十" (10 CJK characters, no lexicon
keyword, no pattern match) is scored 50, level medium. -/
theorem scriptBonus_amended_witness :
    scriptBonus ("一二三四五六七八九十".toList) = 50 ∧
    (analyzeText ("一二三四五六七八九十".toList) []).threat_score = 50 ∧
    (analyzeText ("一二三四五六七八九十".toList) []).threat_level = .medium := by
  have h2 := scriptBonus_amended.2 ("一二三四五六七八九十".toList) []
    (by decide) (by decide) (by decide)
  have h1 := scriptBonus_amended.1 ("一二三四五六七八九十".toList)
  exact ⟨h1.trans (by decide), h2.1, h2.2⟩

/-- C3 counterexample: submitting " x" (leading space) through the analyze entry
point yields text_preview "x", not the first 150 characters of the original,
untrimmed input " x": the handler trims before scoring, and the preview is built
from the trimmed text. -/
theorem text_preview_claim_counterexample :
    (analyzeEndpoint (" x".toList) []).map (fun r => r.text_preview) = some ("x".toList) ∧
    ("x".toList : List Char) ≠ (" x".toList).take 150 := by
  refine ⟨by decide, by decide⟩

/-- C3 (amended): for every text accepted by the analyze entry point, the
text_preview of the returned analysis equals the first 150 characters of the
sanitized input (the original trimmed of surrounding whitespace and capped at
5000 characters), with the truncation suffix "..." appended if and only if the
sanitized input exceeds 150 characters. -/
theorem text_preview_amended (text now : List Char)
    (h1 : jsTrim text ≠ []) (h2 : text.length ≤ 10000) :
    (analyzeEndpoint text now).map (fun r => r.text_preview) =
      some (if ((jsTrim text).take 5000).length > 150
            then ((jsTrim text).take 5000).take 150 ++ "...".toList
            else (jsTrim text).take 5000) := by
  unfold analyzeEndpoint
  rw [if_neg h1, if_neg (by omega)]
  rfl

/-- C3 witness: the accepted input " ok" gets text_preview "ok". -/
theorem text_preview_amended_witness :
    (analyzeEndpoint (" ok".toList) []).map (fun r => r.text_preview) = some ("ok".toList) := by
  rw [text_preview_amended (" ok".toList) [] (by decide) (by decide)]
  decide

/-- C4 counterexample: when the fresh random draw is 0.5 (base-36 expansion
"0.i", a value Math.random can return), the generated identifier is "N-I" —
the prefix "N-" followed by a single character, not by exactly 8. -/
theorem genNumber_claim_counterexample :
    genNumber [18] = "N-I".toList ∧ (genNumber [18]).length ≠ 10 := by
  refine ⟨by decide, by decide⟩

/-- C4 (amended): for every invocation of the identifier generator (one fresh
random draw per call, represented by the base-36 fraction digits of the drawn
value), the generated identifier is "N-" followed by at most 8 characters, each
an uppercase alphanumeric (a decimal digit or A–Z). -/
theorem genNumber_amended (ds : List Nat) (h : ∀ d ∈ ds, d < 36) :
    (genNumber ds).take 2 = "N-".toList ∧
    (genNumber ds).length ≤ 10 ∧
    (∀ c ∈ (genNumber ds).drop 2, ('0' ≤ c ∧ c ≤ '9') ∨ ('A' ≤ c ∧ c ≤ 'Z')) := by
  refine ⟨?_, ?_, ?_⟩
  · cases ds <;> rfl
  · simp [genNumber]
  · intro c hc
    cases ds with
    | nil => simp [genNumber, randomToString36] at hc
    | cons d0 ds0 =>
      have hdrop : ((genNumber (d0 :: ds0)).drop 2) =
          (((d0 :: ds0).map base36Char).take 8).map Char.toUpper := rfl
      rw [hdrop] at hc
      obtain ⟨c0, hc0, rfl⟩ := List.mem_map.mp hc
      have hc1 : c0 ∈ (d0 :: ds0).map base36Char := List.mem_of_mem_take hc0
      obtain ⟨d, hd, rfl⟩ := List.mem_map.mp hc1
      have hd36 : d < 36 := h d hd
      interval_cases d <;> decide

/-- C4 witness: a draw with nine base-36 fraction digits yields "N-" followed by
8 uppercase alphanumeric characters. -/
theorem genNumber_amended_witness :
    (genNumber [10, 11, 12, 13, 14, 15, 16, 17, 18]).take 2 = "N-".toList ∧
    (genNumber [10, 11, 12, 13, 14, 15, 16, 17, 18]).length ≤ 10 ∧
    (∀ c ∈ (genNumber [10, 11, 12, 13, 14, 15, 16, 17, 18]).drop 2,
      ('0' ≤ c ∧ c ≤ '9') ∨ ('A' ≤ c ∧ c ≤ 'Z')) :=
  genNumber_amended [10, 11, 12, 13, 14, 15, 16, 17, 18] (by decide)

/-- Modelled from the claim's words (spec §4.3 Contract C): empty input gives
probability 0, risk minimal, prediction "No threat signals"; otherwise
base = len(threats) * 20, multiplied by 1.3 when the local hour is before 06:00
or after 23:00 (the product n * 20 * 1.3 is the exact integer n * 20 * 13 / 10,
on which Math.round is the identity); probability = min(round(base), 100);
risk_level is extreme when probability ≥ 80, high when probability ≥ 60, else
moderate; prediction is "HIGH CRIME PROBABILITY" exactly when probability ≥ 60. -/
def estimateProbabilitySpec (threats : List AnalysisResult) (hour : Nat) : ProbResult :=
  if threats.length = 0 then ⟨0, .minimal, "No threat signals".toList⟩
  else
    let base := if hour < 6 ∨ hour > 23 then threats.length * 20 * 13 / 10
                else threats.length * 20
    let probability := min base 100
    ⟨probability,
     if probability ≥ 80 then .extreme else if probability ≥ 60 then .high else .moderate,
     if probability ≥ 60 then "HIGH CRIME PROBABILITY".toList else "Low risk".toList⟩

/-- C5: the single-submission probability estimator behaves exactly as the claim
states — empty input gives probability 0, risk minimal, prediction
"No threat signals"; otherwise base is n * 20, multiplied by 1.3 at night,
probability = min(round(base), 100), risk_level per the 80/60 thresholds, and
prediction is "HIGH CRIME PROBABILITY" iff probability ≥ 60. -/
theorem calculateProbability_refines_spec (threats : List AnalysisResult) (hour : Nat) :
    calculateProbability threats hour = estimateProbabilitySpec threats hour := by
  by_cases h0 : threats.length = 0
  · simp [calculateProbability, estimateProbabilitySpec, h0]
  · by_cases hn : hour < 6 ∨ hour > 23
    · have hb : nightHour hour = true := by
        unfold nightHour; rcases hn with h | h <;> simp [h]
      have harith : threats.length * 20 * 13 / 10 = 26 * threats.length := by omega
      simp [calculateProbability, estimateProbabilitySpec, h0, hb, hn, harith]
    · have hb : nightHour hour = false := by
        unfold nightHour
        push_neg at hn
        simp only [Bool.or_eq_false_iff, decide_eq_false_iff_not]
        omega
      have harith : threats.length * 20 = 20 * threats.length := Nat.mul_comm _ _
      simp [calculateProbability, estimateProbabilitySpec, h0, hb, hn, harith]

/-- C6: the log-based predictor returns citywide_risk elevated iff the number of
high/critical records is positive (else low), predicted crime count three times
that number, the fixed hotspots list iff it is positive (else empty), and
confidence high iff it exceeds 2 (else medium); a log with 3 high/critical
records yields elevated, 9, high. -/
theorem predictionOf_contract (log : List ThreatRecord) :
    ((predictionOf log).citywide_risk = .elevated ↔ 0 < riskCount log) ∧
    (predictionOf log).predicted_crimes = riskCount log * 3 ∧
    ((predictionOf log).hotspots = ["downtown".toList, "transit hub".toList] ↔
      0 < riskCount log) ∧
    ((predictionOf log).hotspots = [] ↔ riskCount log = 0) ∧
    ((predictionOf log).confidence = .high ↔ 2 < riskCount log) ∧
    (riskCount log = 3 →
      (predictionOf log).citywide_risk = .elevated ∧
      (predictionOf log).predicted_crimes = 9 ∧
      (predictionOf log).confidence = .high) := by
  unfold predictionOf
  refine ⟨?_, rfl, ?_, ?_, ?_, ?_⟩
  · split_ifs with h <;> simp_all
  · split_ifs with h <;> simp_all
  · split_ifs with h <;> simp_all
    omega
  · split_ifs with h <;> simp_all
  · intro h3
    simp [h3]

/-- C6 witness: a log of three critical records yields elevated risk, predicted
crime count 9 and high confidence. -/
theorem predictionOf_contract_witness :
    (predictionOf [sampleRecord, sampleRecord, sampleRecord]).citywide_risk = .elevated ∧
    (predictionOf [sampleRecord, sampleRecord, sampleRecord]).predicted_crimes = 9 ∧
    (predictionOf [sampleRecord, sampleRecord, sampleRecord]).confidence = .high :=
  (predictionOf_contract [sampleRecord, sampleRecord, sampleRecord]).2.2.2.2.2 (by decide)

/-- C9: the threat log starts with the two pre-seeded demo records (one critical,
one high), so however the log grows by appends, the statistics view reports
total_threats ≥ 2 and the prediction view reports citywide_risk elevated — even
before any text has been submitted (extra = []). -/
theorem demo_seeded_log_nonempty (n1 n2 t1 t2 : List Char) (extra : List ThreatRecord) :
    2 ≤ (statisticsOf (demoThreats n1 n2 t1 t2 ++ extra)).total_threats ∧
    (predictionOf (demoThreats n1 n2 t1 t2 ++ extra)).citywide_risk = .elevated := by
  constructor
  · show 2 ≤ (demoThreats n1 n2 t1 t2 ++ extra).length
    simp [demoThreats]
  · have h : 0 < riskCount (demoThreats n1 n2 t1 t2 ++ extra) := by
      unfold riskCount demoThreats
      simp [List.filter_append, isHighOrCritical]
    unfold predictionOf
    simp [h]

/-- C10: the branch condition of the nighttime multiplier is `hour < 6 or
hour > 23`; since `getHours` ranges over 0..23, the second disjunct never fires:
for every hour below 24 the multiplier applies exactly when hour < 6, and an
analysis run during the 23:00 hour behaves exactly like a midday one. -/
theorem night_multiplier_hours (threats : List AnalysisResult) (hour : Nat)
    (h : hour < 24) :
    (nightHour hour = true ↔ hour < 6) ∧
    nightHour 23 = false ∧
    calculateProbability threats 23 = calculateProbability threats 12 := by
  refine ⟨?_, rfl, ?_⟩
  · unfold nightHour
    simp only [Bool.or_eq_true, decide_eq_true_eq]
    omega
  · by_cases h0 : threats.length = 0 <;> simp [calculateProbability, h0, nightHour]

/-- C10 witness: at 23:00 the multiplier does not apply. -/
theorem night_multiplier_hours_witness :
    (nightHour 23 = true ↔ 23 < 6) ∧
    nightHour 23 = false ∧
    calculateProbability [sampleAnalysis] 23 = calculateProbability [sampleAnalysis] 12 :=
  night_multiplier_hours [sampleAnalysis] 23 (by decide)

end CrimeAI
